import Mathlib

/-!
Shallow embedding of parts of the gVisor sentry and `runsc` container
runtime, with theorems checking the natural-language specification
against the code.

Embedded components:
* `pkg/sentry/fsimpl/timerfd/timerfd.go` — the timerfd file description
  (`Read`, `Readiness`, `NotifyTimer`, `SetTime`).
* `pkg/sentry/control/lifecycle.go` — the container control plane
  (`StartContainer` start counting / `StartedCh`, `createNewMountNamespace`).
* Restore-time spec validation and the container status machine, whose
  implementations are not part of the corpus (only their tests are);
  those are modelled from the spec and marked as such.
-/

namespace GVisor

/-! ## Timerfd (`pkg/sentry/fsimpl/timerfd/timerfd.go`) -/

/-- State of a `TimerFileDescription`. `val` is the number of timer
expirations since the last successful read or `SetTime`; in the source it
is an `atomicbitops.Uint64`, modelled as a `Nat` kept below `2^64` by the
operations that write it. -/
structure TimerFileDescription where
  val : Nat
  deriving Repr, DecidableEq

/-- Errors that `TimerFileDescription.Read` can surface: `linuxerr.EINVAL`,
`linuxerr.ErrWouldBlock`, or the error propagated from a failed
`dst.CopyOut`. -/
inductive ReadError where
  | einval
  | wouldBlock
  | copyOutError
  deriving Repr, DecidableEq

/-- Result of a `Read` call: number of bytes reported read, the error (if
any), and the bytes that were written toward the destination buffer. -/
structure ReadResult where
  n : Nat
  err : Option ReadError
  buf : List Nat
  deriving Repr, DecidableEq

/-- `hostarch.ByteOrder.PutUint64`: the 8 little-endian bytes of `v`
(mod `2^64`). `hostarch.ByteOrder` is little-endian on all supported
architectures, matching the spec's "8-byte little-endian". -/
def putUint64LE (v : Nat) : List Nat :=
  [v % 256, v / 256 % 256, v / 256 ^ 2 % 256, v / 256 ^ 3 % 256,
   v / 256 ^ 4 % 256, v / 256 ^ 5 % 256, v / 256 ^ 6 % 256, v / 256 ^ 7 % 256]

/-- Little-endian decoding, inverse of `putUint64LE` below `2^64`. -/
def decodeUint64LE (bs : List Nat) : Nat :=
  match bs with
  | [] => 0
  | b :: rest => b % 256 + 256 * decodeUint64LE rest

/-- `TimerFileDescription.Read`. `dstNumBytes` is `dst.NumBytes()`;
`copyOutOk` says whether `dst.CopyOut` succeeds (that outcome depends on
the destination memory, outside this state). Control flow follows the
source: reject short buffers with `EINVAL`; swap the counter to zero and,
if the swapped value was non-zero, copy out its 8 little-endian bytes —
on copy-out failure the consumed count is NOT restored (the source
comments that Linux does not undo consuming the expirations); if the
swapped value was zero, return `ErrWouldBlock`. -/
def TimerFileDescription.read (tfd : TimerFileDescription)
    (dstNumBytes : Nat) (copyOutOk : Bool) :
    TimerFileDescription × ReadResult :=
  if dstNumBytes < 8 then
    (tfd, ⟨0, some .einval, []⟩)
  else
    -- val := tfd.val.Swap(0)
    let val := tfd.val
    let tfd' : TimerFileDescription := ⟨0⟩
    if val ≠ 0 then
      let buf := putUint64LE val
      if copyOutOk then
        (tfd', ⟨8, none, buf⟩)
      else
        (tfd', ⟨0, some .copyOutError, buf⟩)
    else
      (tfd', ⟨0, some .wouldBlock, []⟩)

/-- `waiter.ReadableEvents = EventIn | EventRdNorm` (0x1 | 0x40).
Modelled from the spec: the `pkg/waiter` package is not part of the
corpus; only the non-zero readable-readiness bit pattern matters here. -/
def ReadableEvents : Nat := 0x41

/-- `TimerFileDescription.Readiness`. As in the source, the returned mask
is `ReadableEvents` whenever the expiration counter is non-zero; the
`mask` argument is not consulted. -/
def TimerFileDescription.readiness (tfd : TimerFileDescription)
    (mask : Nat) : Nat :=
  if tfd.val ≠ 0 then ReadableEvents else 0

/-- `TimerFileDescription.NotifyTimer`: atomically add `exp` to the
counter (`atomicbitops.Uint64.Add` wraps modulo `2^64`). -/
def TimerFileDescription.notifyTimer (tfd : TimerFileDescription)
    (exp : Nat) : TimerFileDescription :=
  ⟨(tfd.val + exp) % 2 ^ 64⟩

/-- `TimerFileDescription.SetTime`'s effect on the expiration counter:
the timer-setting callback stores zero. -/
def TimerFileDescription.setTimeVal (tfd : TimerFileDescription) :
    TimerFileDescription :=
  ⟨0⟩

/-! ## Control plane (`pkg/sentry/control/lifecycle.go`) -/

/-- Wrap an integer into the range of a Go `int32`. -/
def int32wrap (x : Int) : Int :=
  (x + 2 ^ 31) % 2 ^ 32 - 2 ^ 31

/-- The counters of a `Lifecycle`: `NumContainers` and
`containersStarted` are `int32` fields in the source. -/
structure LifecycleCounters where
  numContainers : Int
  containersStarted : Int
  deriving Repr, DecidableEq

/-- A fresh `Lifecycle` configured for `n` containers:
`containersStarted` starts at the Go zero value. -/
def Lifecycle.init (n : Int) : LifecycleCounters :=
  ⟨n, 0⟩

/-- The tail of a successful `Lifecycle.StartContainer` call:
`l.containersStarted++`, then the `StartedCh` send fires exactly when
`l.NumContainers == l.containersStarted`. Returns the new state and
whether the channel received a value on this call. -/
def Lifecycle.startStep (l : LifecycleCounters) : LifecycleCounters × Bool :=
  let c := int32wrap (l.containersStarted + 1)
  (⟨l.numContainers, c⟩, decide (l.numContainers = c))

/-- State after `k` successful `StartContainer` calls. -/
def Lifecycle.startRun (l : LifecycleCounters) : Nat → LifecycleCounters
  | 0 => l
  | k + 1 => (Lifecycle.startStep (Lifecycle.startRun l k)).1

/-- Number of values `StartedCh` received across `k` successful
`StartContainer` calls. -/
def Lifecycle.signalCount (l : LifecycleCounters) : Nat → Nat
  | 0 => 0
  | k + 1 =>
    Lifecycle.signalCount l k +
      (if (Lifecycle.startStep (Lifecycle.startRun l k)).2 then 1 else 0)

/-- A submount from `StartContainerArgs.SubMountConf`. -/
structure SentryMount where
  target : String
  fsType : String
  deriving Repr, DecidableEq

/-- Observable configuration of the mount namespace built by
`Lifecycle.createNewMountNamespace`: the root mount's read-only flag,
filesystem type and mount data, and the submounts actually mounted
beneath the root. -/
structure MountNamespaceConfig where
  readOnly : Bool
  fsType : String
  data : String
  mountedSubmounts : List SentryMount
  deriving Repr, DecidableEq

/-- Go's `strings.Join(elems, ",")`. -/
def joinComma : List String → String
  | [] => ""
  | [x] => x
  | x :: xs => x ++ "," ++ joinComma xs

/-- `Lifecycle.createNewMountNamespace`: builds the gofer mount data
`"trans=fd,rfdno=<fd>,wfdno=<fd>"` from the single mount fd and creates
the root mount with `ReadOnly: true`. The submounts argument is accepted
but the source ends with `// TODO: Mount submounts.` and mounts none of
them. -/
def Lifecycle.createNewMountNamespace (fsType : String) (fd : Int)
    (submounts : List SentryMount) : MountNamespaceConfig :=
  let data := joinComma
    ["trans=fd", "rfdno=" ++ toString fd, "wfdno=" ++ toString fd]
  { readOnly := true
    fsType := fsType
    data := data
    mountedSubmounts := [] }

/-! ## Container status machine (`runsc/container`)

The `runsc/container` implementation is not part of the corpus — only its
tests (`container_test.go`) are — so `Pause` and `Resume` are modelled
from the spec. -/

/-- Container status, `status ∈ {Creating, Created, Running, Paused,
Stopped}`. -/
inductive ContainerStatus where
  | Creating
  | Created
  | Running
  | Paused
  | Stopped
  deriving Repr, DecidableEq

/-- State errors of the container lifecycle contracts. -/
inductive StateError where
  | AlreadyStarted
  | NotRunning
  | NotPaused
  deriving Repr, DecidableEq

/-- A container as seen by the lifecycle FSM. -/
structure Container where
  status : ContainerStatus
  deriving Repr, DecidableEq

/-- Modelled from the spec: `runsc`'s `Container.Pause` is not under the
corpus; per the spec, `Pause()` transitions `Running → Paused` and fails
with `NotRunning` otherwise, leaving the status unchanged. -/
def Container.pause (c : Container) : Container × Option StateError :=
  if c.status = ContainerStatus.Running then
    (⟨ContainerStatus.Paused⟩, none)
  else
    (c, some StateError.NotRunning)

/-- Modelled from the spec: `runsc`'s `Container.Resume` is not under the
corpus; per the spec, `Resume()` reverses `Pause`, transitioning
`Paused → Running`, and fails with `NotPaused` otherwise, leaving the
status unchanged. -/
def Container.resume (c : Container) : Container × Option StateError :=
  if c.status = ContainerStatus.Paused then
    (⟨ContainerStatus.Running⟩, none)
  else
    (c, some StateError.NotPaused)

/-! ## Restore-time spec validation

`specutils.RestoreValidateSpec` is not part of the corpus — only its
tests are — so the validation is modelled from the spec: equality is
required on `Process.Terminal`, `Process.Args`, `Process.Capabilities`,
`Linux.Devices`, `Linux.Namespaces` (by `Type` only, not `Path`),
`Linux.Seccomp`, and top-level `Annotations` excluding three internal key
prefixes; `Mounts` must match allowing duplicates with identical
`(destination, source, type)`; `Linux.Resources` may differ; a mismatch
fails with an error naming the field (error strings as the tests expect
them); the `ignore` policy bypasses validation. -/

/-- OCI `LinuxCapabilities`. -/
structure LinuxCapabilities where
  bounding : List String
  effective : List String
  inheritable : List String
  permitted : List String
  ambient : List String
  deriving Repr, DecidableEq

/-- OCI `Process`: the fields the validation consults. -/
structure OCIProcess where
  terminal : Bool
  args : List String
  cwd : String
  capabilities : LinuxCapabilities
  deriving Repr, DecidableEq

/-- OCI `LinuxDevice`. -/
structure LinuxDevice where
  path : String
  devType : String
  major : Int
  minor : Int
  fileMode : Option Nat
  deriving Repr, DecidableEq

/-- OCI `LinuxNamespace`: a `Type` and a `Path`. -/
structure LinuxNamespace where
  nsType : String
  nsPath : String
  deriving Repr, DecidableEq

/-- OCI `LinuxSeccomp` (the part the tests exercise). -/
structure LinuxSeccomp where
  defaultAction : String
  deriving Repr, DecidableEq

/-- OCI `LinuxMemory`. -/
structure LinuxMemory where
  limit : Option Int
  swap : Option Int
  reservation : Option Int
  deriving Repr, DecidableEq

/-- OCI `LinuxResources` (the part the tests exercise). -/
structure LinuxResources where
  memory : Option LinuxMemory
  deriving Repr, DecidableEq

/-- OCI `Linux` section. -/
structure OCILinux where
  devices : List LinuxDevice
  namespaces : List LinuxNamespace
  seccomp : Option LinuxSeccomp
  resources : Option LinuxResources
  deriving Repr, DecidableEq

/-- OCI `Mount`. -/
structure OCIMount where
  destination : String
  source : String
  mntType : String
  deriving Repr, DecidableEq

/-- An OCI runtime spec: the fields restore validation consults.
`annotations` is the top-level `Annotations` map as a key-value list. -/
structure OCISpec where
  process : OCIProcess
  mounts : List OCIMount
  annotations : List (String × String)
  linux : Option OCILinux
  deriving Repr, DecidableEq

/-- Restore-spec validation policy: the `--restore-spec-validation` flag
is either enforcing or `ignore`. -/
inductive ValidationPolicy where
  | enforce
  | ignore
  deriving Repr, DecidableEq

/-- Annotation key prefixes excluded from restore validation. -/
def excludedAnnotationPrefixes : List String :=
  ["dev.gvisor.internal.", "dev.gvisor.spec.mount.",
   "dev.gvisor.container-name-remap."]

/-- Top-level annotations with the excluded internal prefixes dropped. -/
def filterAnnotations (a : List (String × String)) :
    List (String × String) :=
  a.filter (fun kv =>
    ! excludedAnnotationPrefixes.any (fun p => p.isPrefixOf kv.1))

/-- The namespace `Type`s of a spec's `Linux.Namespaces` (a nil `Linux`
reads as an empty list). -/
def OCISpec.nsTypes (s : OCISpec) : List String :=
  ((s.linux.map (fun l => l.namespaces.map (fun n => n.nsType))).getD [])

/-- The `Linux.Devices` of a spec (a nil `Linux` reads as empty). -/
def OCISpec.devices (s : OCISpec) : List LinuxDevice :=
  ((s.linux.map (fun l => l.devices)).getD [])

/-- The `Linux.Seccomp` of a spec (nil `Linux` reads as none). -/
def OCISpec.seccomp (s : OCISpec) : Option LinuxSeccomp :=
  (s.linux.map (fun l => l.seccomp)).getD none

/-- Modelled from the spec: argv equivalence for restore validation. Args
match when equal; additionally `basename(argv[0])` run from `Cwd` and
`./basename` are treated as equivalent (the remaining arguments must be
equal). -/
def argsMatch (oldP newP : OCIProcess) : Bool :=
  (oldP.args == newP.args) ||
    (match oldP.args, newP.args with
     | o0 :: oRest, n0 :: nRest =>
       (oRest == nRest) &&
         ((newP.cwd ++ "/" ++ (((n0.splitOn "./").getLast? ).getD n0) == o0) ||
          (oldP.cwd ++ "/" ++ (((o0.splitOn "./").getLast?).getD o0) == n0))
     | _, _ => false)

/-- Duplicate-mount well-formedness of the restoring spec: any two
entries sharing a destination must agree on `(destination, source,
type)`; otherwise validation fails with `"invalid mount"`. -/
def mountsWellFormed (ms : List OCIMount) : Bool :=
  ms.all (fun m => ms.all (fun m' =>
    (m.destination != m'.destination) || (m == m')))

/-- Deduplicate mounts by destination, keeping first occurrences. -/
def dedupMounts (ms : List OCIMount) : List OCIMount :=
  (ms.foldl (fun acc m =>
    if acc.any (fun m' => m'.destination == m.destination) then acc
    else acc ++ [m]) [])

/-- Cross-spec mount comparison: after deduplication, the
`(destination, type)` sequences must agree (sources may be rewritten at
restore time, as the duplicate-mounts test shows). -/
def mountsMatch (oldMs newMs : List OCIMount) : Bool :=
  (dedupMounts oldMs).map (fun m => (m.destination, m.mntType)) ==
    (dedupMounts newMs).map (fun m => (m.destination, m.mntType))

/-- Modelled from the spec: `specutils.RestoreValidateSpec` for one
container, checking the restoring spec `newS` against the checkpointed
spec `oldS`. Field checks run in order; the first mismatch produces the
error string naming that field (strings as the tests expect). The
`ignore` policy bypasses everything. -/
def RestoreValidateSpec (policy : ValidationPolicy) (oldS newS : OCISpec) :
    Option String :=
  if policy = ValidationPolicy.ignore then
    none
  else if oldS.process.terminal ≠ newS.process.terminal then
    some "Terminal does not match across checkpoint restore"
  else if argsMatch oldS.process newS.process = false then
    some "Args does not match across checkpoint restore"
  else if oldS.process.capabilities ≠ newS.process.capabilities then
    some "Capabilities does not match across checkpoint restore"
  else if OCISpec.devices oldS ≠ OCISpec.devices newS then
    some "Devices does not match across checkpoint restore"
  else if OCISpec.nsTypes oldS ≠ OCISpec.nsTypes newS then
    some "Namespace does not match across checkpoint restore"
  else if OCISpec.seccomp oldS ≠ OCISpec.seccomp newS then
    some "Seccomp does not match across checkpoint restore"
  else if filterAnnotations oldS.annotations ≠
      filterAnnotations newS.annotations then
    some "Annotations does not match across checkpoint restore"
  else if mountsWellFormed newS.mounts = false then
    some "invalid mount"
  else if mountsMatch oldS.mounts newS.mounts = false then
    some "Mounts does not match across checkpoint restore"
  else
    none

/-! ## Checkpoint/restore of the counter workload

`Container.Checkpoint`/`Container.Restore` are not part of the corpus —
only `testCheckpointRestore` is — so checkpoint and restore are modelled
from the spec: checkpoint serializes the whole state while the guest is
frozen, and restore "deterministically reconstructs it", resuming
execution exactly where the checkpoint left it, with
`Restored = true, Checkpointed = false` afterwards. The workload is the
test script `i=0; while true; do echo $i >> out; sleep 1; i=$((i+1));
done`. -/

/-- State of the counter workload: the next number to write and the
contents of the output file. -/
structure WorkState where
  i : Nat
  out : List Nat
  deriving Repr, DecidableEq

/-- One iteration of the counter loop: append `i` to the output file,
then increment `i`. -/
def workStep (s : WorkState) : WorkState :=
  ⟨s.i + 1, s.out ++ [s.i]⟩

/-- The workload after `k` iterations from `i=0` with an empty file. -/
def workRun : Nat → WorkState
  | 0 => ⟨0, []⟩
  | k + 1 => workStep (workRun k)

/-- The restore-relevant sandbox flags. -/
structure SandboxFlags where
  restored : Bool
  checkpointed : Bool
  deriving Repr, DecidableEq

/-- Modelled from the spec: `Checkpoint` captures the guest state
exactly (the image determines the full state; the output file is host
state and is not part of the image). -/
def checkpointImage (s : WorkState) : Nat :=
  s.i

/-- Modelled from the spec: `Restore` reconstructs the guest state from
the image — here the loop counter — over the (truncated) host output
file, and sets `Restored = true`, `Checkpointed = false`. -/
def restoreWork (image : Nat) (hostOut : List Nat) :
    WorkState × SandboxFlags :=
  (⟨image, hostOut⟩, ⟨true, false⟩)

/-! ## Concrete sample specs, used to instantiate the theorems -/

/-- Empty capability sets. -/
def capsEmpty : LinuxCapabilities :=
  ⟨[], [], [], [], []⟩

/-- A minimal `sleep`-style process. -/
def procSleep : OCIProcess :=
  ⟨false, ["sleep", "100"], "/", capsEmpty⟩

/-- A minimal checkpointed spec. -/
def specSleep : OCISpec :=
  ⟨procSleep, [], [], none⟩

/-- `specSleep` with `Process.Terminal` flipped to `true`. -/
def specSleepTerminal : OCISpec :=
  ⟨⟨true, ["sleep", "100"], "/", capsEmpty⟩, [], [], none⟩

/-- `specSleep` with a network namespace at one path and a memory
reservation of 3. -/
def specSleepNs1 : OCISpec :=
  ⟨procSleep, [], [],
   some ⟨[], [⟨"network", "/proc/1/ns/net1"⟩], none,
         some ⟨some ⟨some 1, some 2, some 3⟩⟩⟩⟩

/-- `specSleep` with the same namespace `Type` at a different path and a
different memory reservation. -/
def specSleepNs2 : OCISpec :=
  ⟨procSleep, [], [],
   some ⟨[], [⟨"network", "/proc/1/ns/net2"⟩], none,
         some ⟨some ⟨some 1, some 2, some 5⟩⟩⟩⟩

/-! ## Helper lemmas -/

/-- Little-endian round trip: decoding the 8 bytes produced by
`putUint64LE` recovers any value below `2^64`. -/
theorem decodeUint64LE_putUint64LE (v : Nat) (h : v < 2 ^ 64) :
    decodeUint64LE (putUint64LE v) = v := by
  simp only [putUint64LE, decodeUint64LE]
  omega

/-- Whenever the destination buffer is big enough, `Read` leaves the
expiration counter at zero, whatever branch it takes. -/
theorem read_resets_val (tfd : TimerFileDescription)
    (dstNumBytes : Nat) (copyOutOk : Bool) (h : ¬ dstNumBytes < 8) :
    (tfd.read dstNumBytes copyOutOk).1 = ⟨0⟩ := by
  obtain ⟨v⟩ := tfd
  by_cases hv : v = 0
  · simp [TimerFileDescription.read, h, hv]
  · simp only [TimerFileDescription.read, h, hv, if_false, ne_eq,
      not_false_eq_true, if_true, ite_not]
    cases copyOutOk <;> simp

/-! ## Claim theorems -/

/-- C10: every `Read` whose destination buffer is smaller than 8 bytes
returns `EINVAL` and leaves the expiration counter unchanged, regardless
of the counter's value. -/
theorem timerfd_read_short_buffer_einval
    (tfd : TimerFileDescription) (dstNumBytes : Nat) (copyOutOk : Bool)
    (h : dstNumBytes < 8) :
    tfd.read dstNumBytes copyOutOk =
      (tfd, ⟨0, some ReadError.einval, []⟩) := by
  simp [TimerFileDescription.read, h]

/-- Witness for C10: a 7-byte buffer read on a counter of 5 returns
`EINVAL` and leaves the counter at 5. -/
theorem timerfd_read_short_buffer_einval_witness :
    (TimerFileDescription.mk 5).read 7 true =
      (⟨5⟩, ⟨0, some ReadError.einval, []⟩) :=
  timerfd_read_short_buffer_einval ⟨5⟩ 7 true (by decide)

/-- Counterexample to C1 as stated: with the counter at 5 and a failing
copy-out, `Read` returns the copy-out error but the counter does NOT
stay unchanged — it has been swapped to zero. -/
theorem timerfd_failed_copyout_cex :
    ((TimerFileDescription.mk 5).read 8 false).2.err =
        some ReadError.copyOutError ∧
      ((TimerFileDescription.mk 5).read 8 false).1.val ≠
        (TimerFileDescription.mk 5).val := by
  decide

/-- C1 (amended): if `Read` runs with a non-zero expiration counter and
the copy-out fails, the call returns the copy-out error and the counter
has been reset to zero — the expirations are consumed despite the failed
read (the source comments that Linux does not undo the consumption). -/
theorem timerfd_failed_copyout_consumes
    (tfd : TimerFileDescription) (dstNumBytes : Nat)
    (h8 : 8 ≤ dstNumBytes) (hnz : tfd.val ≠ 0) :
    tfd.read dstNumBytes false =
      (⟨0⟩, ⟨0, some ReadError.copyOutError, putUint64LE tfd.val⟩) := by
  have h : ¬ dstNumBytes < 8 := by omega
  simp [TimerFileDescription.read, h, hnz]

/-- Witness for C1 (amended): counter 5, failing copy-out — error
returned and counter zeroed. -/
theorem timerfd_failed_copyout_consumes_witness :
    (TimerFileDescription.mk 5).read 8 false =
      (⟨0⟩, ⟨0, some ReadError.copyOutError, putUint64LE 5⟩) :=
  timerfd_failed_copyout_consumes ⟨5⟩ 8 (by decide) (by decide)

/-- C7: with a buffer of at least 8 bytes and a successful copy-out, a
read on a non-zero counter returns 8 bytes that little-endian-encode the
number of expirations and resets the counter, so an immediately
following read returns `WouldBlock`; a read on a zero counter returns
`WouldBlock` without modifying any state. -/
theorem timerfd_read_expirations
    (tfd : TimerFileDescription) (dstNumBytes : Nat)
    (h8 : 8 ≤ dstNumBytes) (hlt : tfd.val < 2 ^ 64) :
    (tfd.val ≠ 0 →
      tfd.read dstNumBytes true = (⟨0⟩, ⟨8, none, putUint64LE tfd.val⟩) ∧
      decodeUint64LE (putUint64LE tfd.val) = tfd.val ∧
      ((tfd.read dstNumBytes true).1.read dstNumBytes true).2 =
        ⟨0, some ReadError.wouldBlock, []⟩) ∧
    (tfd.val = 0 →
      tfd.read dstNumBytes true = (tfd, ⟨0, some ReadError.wouldBlock, []⟩)) := by
  have h : ¬ dstNumBytes < 8 := by omega
  constructor
  · intro hnz
    refine ⟨?_, decodeUint64LE_putUint64LE _ hlt, ?_⟩
    · simp [TimerFileDescription.read, h, hnz]
    · simp [TimerFileDescription.read, h, hnz]
  · intro hz
    obtain ⟨v⟩ := tfd
    simp only at hz
    subst hz
    simp [TimerFileDescription.read, h]

/-- Witness for C7: counter 3, an 8-byte buffer: the read returns 8
bytes decoding to 3, and the follow-up read would block. -/
theorem timerfd_read_expirations_witness :
    (TimerFileDescription.mk 3).read 8 true =
        (⟨0⟩, ⟨8, none, putUint64LE 3⟩) ∧
      decodeUint64LE (putUint64LE 3) = 3 ∧
      (((TimerFileDescription.mk 3).read 8 true).1.read 8 true).2 =
        ⟨0, some ReadError.wouldBlock, []⟩ :=
  (timerfd_read_expirations ⟨3⟩ 8 (by decide) (by norm_num)).1 (by decide)

/-- Counterexample to C8 as stated: with the counter at 1,
`Readiness 0` is non-zero (it is `ReadableEvents`), so the returned mask
is not a subset of the argument mask. -/
theorem timerfd_readiness_mask_cex :
    (TimerFileDescription.mk 1).readiness 0 ≠ 0 ∧
      ¬ ((TimerFileDescription.mk 1).readiness 0 &&& 0 =
          (TimerFileDescription.mk 1).readiness 0) := by
  decide

/-- C8 (amended): `Readiness` ignores its event-mask argument — the
result is the same for every mask, is always a subset of
`ReadableEvents` (not of the argument), is zero exactly when the
expiration counter is zero, and is zero after any sufficiently-buffered
`Read`. -/
theorem timerfd_readiness_ignores_mask
    (tfd : TimerFileDescription) (mask mask' : Nat) :
    tfd.readiness mask = tfd.readiness mask' ∧
    tfd.readiness mask &&& ReadableEvents = tfd.readiness mask ∧
    (tfd.readiness mask = 0 ↔ tfd.val = 0) ∧
    (tfd.readiness mask ≠ 0 → tfd.readiness mask = ReadableEvents) ∧
    (∀ dstNumBytes copyOutOk, 8 ≤ dstNumBytes →
      (tfd.read dstNumBytes copyOutOk).1.readiness mask = 0) := by
  refine ⟨?_, ?_, ?_, ?_, ?_⟩
  · by_cases hv : tfd.val = 0 <;>
      simp [TimerFileDescription.readiness, hv]
  · by_cases hv : tfd.val = 0 <;>
      simp [TimerFileDescription.readiness, hv]
  · by_cases hv : tfd.val = 0 <;>
      simp [TimerFileDescription.readiness, hv, ReadableEvents]
  · by_cases hv : tfd.val = 0 <;>
      simp [TimerFileDescription.readiness, hv]
  · intro d ok hd
    have h : ¬ d < 8 := by omega
    rw [read_resets_val tfd d ok h]
    simp [TimerFileDescription.readiness]

/-- Witness for C8 (amended): counter 3 — readiness at mask 0 equals
`ReadableEvents`, and after an 8-byte read it is 0. -/
theorem timerfd_readiness_ignores_mask_witness :
    (TimerFileDescription.mk 3).readiness 0 = ReadableEvents ∧
      ((TimerFileDescription.mk 3).read 8 true).1.readiness 0 = 0 :=
  ⟨(timerfd_readiness_ignores_mask ⟨3⟩ 0 7).2.2.2.1 (by decide),
   (timerfd_readiness_ignores_mask ⟨3⟩ 0 7).2.2.2.2 8 true (by decide)⟩

/-- Within the `int32` range, the started counter tracks the number of
successful `StartContainer` calls exactly. -/
theorem startRun_counters (N : Int) (k : Nat)
    (h : (k : Int) ≤ 2 ^ 31 - 1) :
    Lifecycle.startRun (Lifecycle.init N) k = ⟨N, (k : Int)⟩ := by
  induction k with
  | zero => simp [Lifecycle.startRun, Lifecycle.init]
  | succ n ih =>
    have hn : (n : Int) ≤ 2 ^ 31 - 1 := by push_cast at h ⊢; omega
    rw [Lifecycle.startRun, ih hn]
    show (⟨N, int32wrap ((n : Int) + 1)⟩ : LifecycleCounters) =
      ⟨N, ((n + 1 : Nat) : Int)⟩
    have hw : int32wrap ((n : Int) + 1) = ((n + 1 : Nat) : Int) := by
      simp only [int32wrap]
      push_cast at h ⊢
      omega
    rw [hw]

/-- The `StartedCh` send on the `(i+1)`-st successful call happens
exactly when that call is the `N`-th. -/
theorem startStep_fires (N : Int) (i : Nat)
    (h : (i : Int) + 1 ≤ 2 ^ 31 - 1) :
    (Lifecycle.startStep (Lifecycle.startRun (Lifecycle.init N) i)).2 =
      decide (N = (i : Int) + 1) := by
  have hi : (i : Int) ≤ 2 ^ 31 - 1 := by omega
  rw [startRun_counters N i hi]
  simp only [Lifecycle.startStep]
  have hw : int32wrap ((i : Int) + 1) = (i : Int) + 1 := by
    simp only [int32wrap]
    omega
  rw [hw]

/-- Closed form of the number of `StartedCh` receives over `k`
successful calls. -/
theorem signalCount_formula (N : Int) (k : Nat)
    (h : (k : Int) ≤ 2 ^ 31 - 1) :
    Lifecycle.signalCount (Lifecycle.init N) k =
      if 1 ≤ N ∧ N ≤ (k : Int) then 1 else 0 := by
  induction k with
  | zero =>
    simp only [Lifecycle.signalCount, Nat.cast_zero]
    split_ifs with hc
    · omega
    · rfl
  | succ n ih =>
    have hn : (n : Int) ≤ 2 ^ 31 - 1 := by push_cast at h ⊢; omega
    have hf := startStep_fires N n (by push_cast at h ⊢; omega)
    rw [Lifecycle.signalCount, ih hn, hf]
    by_cases hN : N = (n : Int) + 1
    · simp only [hN, decide_True]
      push_cast
      split_ifs <;> omega
    · simp only [decide_eq_true_eq, hN, if_false]
      push_cast
      split_ifs <;> omega

/-- C5: for a `Lifecycle` configured with `NumContainers = N`, across
any sequence of `k` successful `StartContainer` calls (within the
`int32` range) `StartedCh` receives a value exactly once when
`1 ≤ N ≤ k` — namely on the `N`-th call and on no other — and zero
times when the sequence is shorter than `N`. -/
theorem lifecycle_startedch_fires_once (N : Int) (k : Nat)
    (hk : (k : Int) ≤ 2 ^ 31 - 1) :
    (Lifecycle.signalCount (Lifecycle.init N) k =
      if 1 ≤ N ∧ N ≤ (k : Int) then 1 else 0) ∧
    (∀ i : Nat, i < k →
      ((Lifecycle.startStep (Lifecycle.startRun (Lifecycle.init N) i)).2 =
          true ↔ N = (i : Int) + 1)) := by
  refine ⟨signalCount_formula N k hk, ?_⟩
  intro i hi
  rw [startStep_fires N i (by push_cast at hk ⊢; omega)]
  simp

/-- Witness for C5: with `NumContainers = 2` and three successful calls,
the channel receives exactly one value, on the second call and not on
the third. -/
theorem lifecycle_startedch_fires_once_witness :
    Lifecycle.signalCount (Lifecycle.init 2) 3 = 1 ∧
      ((Lifecycle.startStep
          (Lifecycle.startRun (Lifecycle.init 2) 1)).2 = true) ∧
      ¬ ((Lifecycle.startStep
          (Lifecycle.startRun (Lifecycle.init 2) 2)).2 = true) := by
  have h := lifecycle_startedch_fires_once 2 3 (by norm_num)
  refine ⟨?_, ?_, ?_⟩
  · rw [h.1]
    norm_num
  · rw [h.2 1 (by norm_num)]
    norm_num
  · rw [h.2 2 (by norm_num)]
    norm_num

/-- Counterexample to C9 as stated: `createNewMountNamespace` does not
mount the submounts passed to it (the source leaves them to a TODO). -/
theorem lifecycle_submounts_not_mounted_cex :
    (Lifecycle.createNewMountNamespace "9p" 5
        [⟨"/tmp", "tmpfs"⟩]).mountedSubmounts ≠ [⟨"/tmp", "tmpfs"⟩] := by
  decide

/-- C9 (amended): the mount namespace is created with `ReadOnly = true`
over the given filesystem type with mount data exactly
`"trans=fd,rfdno=<fd>,wfdno=<fd>"` for the supplied mount fd, but the
submounts are not mounted (the source has `// TODO: Mount submounts.`). -/
theorem lifecycle_mountns_config (fsType : String) (fd : Int)
    (submounts : List SentryMount) :
    Lifecycle.createNewMountNamespace fsType fd submounts =
      ⟨true, fsType,
       "trans=fd,rfdno=" ++ toString fd ++ ",wfdno=" ++ toString fd,
       []⟩ := by
  simp only [Lifecycle.createNewMountNamespace, joinComma]
  congr 1
  have e1 : "trans=fd" ++ "," = "trans=fd," := rfl
  have e2 : ("," : String) ++ "wfdno=" = ",wfdno=" := rfl
  have e3 : "trans=fd," ++ "rfdno=" = "trans=fd,rfdno=" := rfl
  calc ("trans=fd" ++ ",") ++
        (("rfdno=" ++ toString fd) ++ "," ++ ("wfdno=" ++ toString fd))
      = "trans=fd," ++
        ("rfdno=" ++ (toString fd ++ (",wfdno=" ++ toString fd))) := by
        rw [e1, String.append_assoc, String.append_assoc,
          ← String.append_assoc "," "wfdno=" (toString fd), e2]
    _ = "trans=fd,rfdno=" ++
        (toString fd ++ (",wfdno=" ++ toString fd)) := by
        rw [← String.append_assoc, e3]
    _ = "trans=fd,rfdno=" ++ toString fd ++ ",wfdno=" ++ toString fd := by
        rw [String.append_assoc, String.append_assoc]

/-- Witness for C9 (amended): fd 5 — read-only root with the literal
gofer mount data, no submounts mounted. -/
theorem lifecycle_mountns_config_witness :
    Lifecycle.createNewMountNamespace "9p" 5 [⟨"/tmp", "tmpfs"⟩] =
      ⟨true, "9p", "trans=fd,rfdno=5,wfdno=5", []⟩ := by
  have h := lifecycle_mountns_config "9p" 5 [⟨"/tmp", "tmpfs"⟩]
  rw [h]
  decide

/-- C6: on a running container the test sequence pause, pause, resume,
resume behaves as specified — the first pause moves `Running → Paused`,
a second pause errors with `NotRunning` leaving the status `Paused`, the
resume moves `Paused → Running`, and a second resume errors with
`NotPaused` leaving the status `Running`; in general pause on a
non-running container and resume on a non-paused container fail with
those errors and do not change the status. -/
theorem container_pause_resume_status (c : Container)
    (h : c.status = ContainerStatus.Running) :
    (c.pause = (⟨ContainerStatus.Paused⟩, none) ∧
      c.pause.1.pause =
        (⟨ContainerStatus.Paused⟩, some StateError.NotRunning) ∧
      c.pause.1.resume = (⟨ContainerStatus.Running⟩, none) ∧
      c.pause.1.resume.1.resume =
        (⟨ContainerStatus.Running⟩, some StateError.NotPaused)) ∧
    (∀ d : Container, d.status ≠ ContainerStatus.Running →
      d.pause = (d, some StateError.NotRunning)) ∧
    (∀ d : Container, d.status ≠ ContainerStatus.Paused →
      d.resume = (d, some StateError.NotPaused)) := by
  obtain ⟨s⟩ := c
  simp only at h
  subst h
  refine ⟨by simp [Container.pause, Container.resume], ?_, ?_⟩
  · intro d hd
    simp [Container.pause, hd]
  · intro d hd
    simp [Container.resume, hd]

/-- Witness for C6: the concrete running container. -/
theorem container_pause_resume_status_witness :
    (Container.mk ContainerStatus.Running).pause =
        (⟨ContainerStatus.Paused⟩, none) ∧
      (Container.mk ContainerStatus.Running).pause.1.pause =
        (⟨ContainerStatus.Paused⟩, some StateError.NotRunning) :=
  ⟨(container_pause_resume_status ⟨ContainerStatus.Running⟩ rfl).1.1,
   (container_pause_resume_status ⟨ContainerStatus.Running⟩ rfl).1.2.1⟩

/-- C2: with validation not set to `ignore`, a `Process.Terminal`
mismatch makes restore validation fail with the "Terminal does not
match" error; with `ignore` it passes; and for each field on the
equality-required list, a mismatch there (with the earlier checks
passing) fails with the error naming that field. -/
theorem restore_spec_validation_mismatch (oldS newS : OCISpec) :
    (RestoreValidateSpec ValidationPolicy.ignore oldS newS = none) ∧
    (oldS.process.terminal ≠ newS.process.terminal →
      RestoreValidateSpec ValidationPolicy.enforce oldS newS =
        some "Terminal does not match across checkpoint restore") ∧
    (oldS.process.terminal = newS.process.terminal →
      argsMatch oldS.process newS.process = false →
      RestoreValidateSpec ValidationPolicy.enforce oldS newS =
        some "Args does not match across checkpoint restore") ∧
    (oldS.process.terminal = newS.process.terminal →
      argsMatch oldS.process newS.process = true →
      oldS.process.capabilities ≠ newS.process.capabilities →
      RestoreValidateSpec ValidationPolicy.enforce oldS newS =
        some "Capabilities does not match across checkpoint restore") ∧
    (oldS.process.terminal = newS.process.terminal →
      argsMatch oldS.process newS.process = true →
      oldS.process.capabilities = newS.process.capabilities →
      OCISpec.devices oldS ≠ OCISpec.devices newS →
      RestoreValidateSpec ValidationPolicy.enforce oldS newS =
        some "Devices does not match across checkpoint restore") ∧
    (oldS.process.terminal = newS.process.terminal →
      argsMatch oldS.process newS.process = true →
      oldS.process.capabilities = newS.process.capabilities →
      OCISpec.devices oldS = OCISpec.devices newS →
      OCISpec.nsTypes oldS ≠ OCISpec.nsTypes newS →
      RestoreValidateSpec ValidationPolicy.enforce oldS newS =
        some "Namespace does not match across checkpoint restore") ∧
    (oldS.process.terminal = newS.process.terminal →
      argsMatch oldS.process newS.process = true →
      oldS.process.capabilities = newS.process.capabilities →
      OCISpec.devices oldS = OCISpec.devices newS →
      OCISpec.nsTypes oldS = OCISpec.nsTypes newS →
      OCISpec.seccomp oldS ≠ OCISpec.seccomp newS →
      RestoreValidateSpec ValidationPolicy.enforce oldS newS =
        some "Seccomp does not match across checkpoint restore") ∧
    (oldS.process.terminal = newS.process.terminal →
      argsMatch oldS.process newS.process = true →
      oldS.process.capabilities = newS.process.capabilities →
      OCISpec.devices oldS = OCISpec.devices newS →
      OCISpec.nsTypes oldS = OCISpec.nsTypes newS →
      OCISpec.seccomp oldS = OCISpec.seccomp newS →
      filterAnnotations oldS.annotations ≠
        filterAnnotations newS.annotations →
      RestoreValidateSpec ValidationPolicy.enforce oldS newS =
        some "Annotations does not match across checkpoint restore") := by
  refine ⟨?_, ?_, ?_, ?_, ?_, ?_, ?_, ?_⟩
  · simp [RestoreValidateSpec]
  · intro h1
    simp [RestoreValidateSpec, h1]
  · intro h1 h2
    simp [RestoreValidateSpec, h1, h2]
  · intro h1 h2 h3
    simp [RestoreValidateSpec, h1, h2, h3]
  · intro h1 h2 h3 h4
    simp [RestoreValidateSpec, h1, h2, h3, h4]
  · intro h1 h2 h3 h4 h5
    simp [RestoreValidateSpec, h1, h2, h3, h4, h5]
  · intro h1 h2 h3 h4 h5 h6
    simp [RestoreValidateSpec, h1, h2, h3, h4, h5, h6]
  · intro h1 h2 h3 h4 h5 h6 h7
    simp [RestoreValidateSpec, h1, h2, h3, h4, h5, h6, h7]

/-- Witness for C2: checkpoint with `Terminal=false`, restore with
`Terminal=true` — validation fails with the Terminal error; with the
`ignore` policy it passes. -/
theorem restore_spec_validation_mismatch_witness :
    RestoreValidateSpec ValidationPolicy.enforce specSleep
        specSleepTerminal =
      some "Terminal does not match across checkpoint restore" ∧
    RestoreValidateSpec ValidationPolicy.ignore specSleep
        specSleepTerminal = none :=
  ⟨(restore_spec_validation_mismatch specSleep specSleepTerminal).2.1
      (by decide),
   (restore_spec_validation_mismatch specSleep specSleepTerminal).1⟩

/-- C3: restore validation compares namespaces by `Type` only and never
looks at `Linux.Resources`: any two specs agreeing on process, mounts,
annotations, devices, seccomp and namespace `Type`s validate
successfully, whatever their namespace `Path`s and resources. -/
theorem restore_spec_validation_ns_resources
    (policy : ValidationPolicy) (oldS newS : OCISpec)
    (hproc : oldS.process = newS.process)
    (hmnt : oldS.mounts = newS.mounts)
    (hann : oldS.annotations = newS.annotations)
    (hdev : OCISpec.devices oldS = OCISpec.devices newS)
    (hsec : OCISpec.seccomp oldS = OCISpec.seccomp newS)
    (hns : OCISpec.nsTypes oldS = OCISpec.nsTypes newS)
    (hwf : mountsWellFormed newS.mounts = true) :
    RestoreValidateSpec policy oldS newS = none := by
  have hargs : argsMatch newS.process newS.process = true := by
    simp [argsMatch]
  have hmm : mountsMatch newS.mounts newS.mounts = true := by
    simp [mountsMatch]
  rcases policy with _ | _ <;>
    simp [RestoreValidateSpec, hproc, hmnt, hann, hdev, hsec, hns, hwf,
      hargs, hmm]

/-- Witness for C3: same namespace `Type` `"network"` at different
paths, different memory reservations — the two specs differ, yet
validation passes. -/
theorem restore_spec_validation_ns_resources_witness :
    specSleepNs1 ≠ specSleepNs2 ∧
      RestoreValidateSpec ValidationPolicy.enforce specSleepNs1
        specSleepNs2 = none :=
  ⟨by decide,
   restore_spec_validation_ns_resources ValidationPolicy.enforce
     specSleepNs1 specSleepNs2 rfl rfl rfl (by decide) (by decide)
     (by decide) (by decide)⟩

/-- The counter workload after `k` iterations has written
`0, 1, …, k-1` and will write `k` next. -/
theorem workRun_closed (k : Nat) : workRun k = ⟨k, List.range k⟩ := by
  induction k with
  | zero => rfl
  | succ n ih =>
    rw [workRun, ih]
    simp [workStep, List.range_succ]

/-- C4: if the last number observed in the output before checkpoint is
`N`, then after restoring the image into a fresh container over a
truncated output file the first number written is `N + 1`; the restored
sandbox has `Restored = true` and `Checkpointed = false`. -/
theorem checkpoint_restore_counter (N : Nat) :
    (workRun (N + 1)).out.getLast? = some N ∧
    (restoreWork (checkpointImage (workRun (N + 1))) []).2 =
      ⟨true, false⟩ ∧
    (workStep
        (restoreWork (checkpointImage (workRun (N + 1))) []).1).out.head? =
      some (N + 1) := by
  rw [workRun_closed]
  refine ⟨?_, rfl, ?_⟩
  · simp [List.range_succ]
  · simp [restoreWork, checkpointImage, workStep]

end GVisor
